import Mathlib

/-!
# imgui-godot GDExtension glue

A shallow embedding of the three source files of the binding layer:

* `gdext/src/main.cpp`: the module entry point (`initialize_ign_module`,
  `uninitialize_ign_module`, `ign_init`);
* `gdext/src/ImGuiGD.h`: the scripting helper `ImGuiGD` and the default arguments of
  `Image` and `ImageButton`;
* `gdext/src/CanvasRenderer.h`: the viewport renderer adapter `CanvasRenderer`.

Effects on the host engine are made explicit by state passing: the engine class registry
is a value of type `ClassDB`, the godot-cpp `InitObject` is a record, and the renderer's
private state is a record.
-/

namespace ImGuiGodot

/-! ## Host-side types used by `main.cpp` -/

/-- Initialization stages of a GDExtension library. The enumeration is declared by
godot-cpp (`godot_cpp/core/defs.hpp`), not by this repository; `main.cpp` only compares a
level with `MODULE_INITIALIZATION_LEVEL_SCENE`. -/
inductive ModuleInitializationLevel where
  | MODULE_INITIALIZATION_LEVEL_CORE
  | MODULE_INITIALIZATION_LEVEL_SERVERS
  | MODULE_INITIALIZATION_LEVEL_SCENE
  | MODULE_INITIALIZATION_LEVEL_EDITOR
  | MODULE_INITIALIZATION_LEVEL_MAX
  deriving DecidableEq, Repr

open ModuleInitializationLevel

/-- The engine class registry as this module acts on it: the names of the classes handed to
`ClassDB::register_class`, oldest first. -/
structure ClassDB where
  classes : List String
  deriving DecidableEq, Repr

/-- The effect of `ClassDB::register_class<T>()` (godot-cpp): class `T` is added to the
registry. The class is identified by its C++ class name. -/
def ClassDB.register_class (T : String) (db : ClassDB) : ClassDB :=
  { classes := db.classes ++ [T] }

/-- The type `void (*)(ModuleInitializationLevel)` of initializer and terminator callbacks;
the registry they act on is passed explicitly. -/
abbrev Callback := ModuleInitializationLevel → ClassDB → ClassDB

/-- The type `GDExtensionBool`, an unsigned byte in the GDExtension interface. -/
abbrev GDExtensionBool := Nat

/-! ## `main.cpp` -/

/-- Embedding of `initialize_ign_module` (main.cpp, lines 20-30). -/
def initialize_ign_module (p_level : ModuleInitializationLevel) (db : ClassDB) : ClassDB :=
  if p_level ≠ MODULE_INITIALIZATION_LEVEL_SCENE then
    db
  else
    let db := ClassDB.register_class "ImGui" db
    let db := ClassDB.register_class "ImGuiRoot" db
    let db := ClassDB.register_class "ImGuiLayer" db
    let db := ClassDB.register_class "ImGuiGodotHelper" db
    let db := ClassDB.register_class "ImGuiGD" db
    db

/-- Embedding of `uninitialize_ign_module` (main.cpp, lines 32-36): both paths return
without touching the registry. -/
def uninitialize_ign_module (p_level : ModuleInitializationLevel) (db : ClassDB) : ClassDB :=
  if p_level ≠ MODULE_INITIALIZATION_LEVEL_SCENE then
    db
  else
    db

/-- The godot-cpp object `GDExtensionBinding::InitObject`: the three loader arguments it is
constructed from (opaque addresses) and what has been registered on it so far. -/
structure InitObject where
  get_proc_address : Nat
  library : Nat
  initialization : Nat
  init_callback : Option Callback
  terminate_callback : Option Callback
  minimum_initialization_level : ModuleInitializationLevel

/-- The constructor `InitObject(p_get_proc_address, p_library, r_initialization)`: nothing is
registered yet and the minimum level is the first stage. -/
def InitObject.new (p_get_proc_address p_library r_initialization : Nat) : InitObject :=
  { get_proc_address := p_get_proc_address
    library := p_library
    initialization := r_initialization
    init_callback := none
    terminate_callback := none
    minimum_initialization_level := MODULE_INITIALIZATION_LEVEL_CORE }

/-- The method `InitObject::register_initializer`. -/
def InitObject.register_initializer (p_init : Callback) (self : InitObject) : InitObject :=
  { self with init_callback := some p_init }

/-- The method `InitObject::register_terminator`. -/
def InitObject.register_terminator (p_terminate : Callback) (self : InitObject) : InitObject :=
  { self with terminate_callback := some p_terminate }

/-- The method `InitObject::set_minimum_library_initialization_level`. -/
def InitObject.set_minimum_library_initialization_level
    (p_level : ModuleInitializationLevel) (self : InitObject) : InitObject :=
  { self with minimum_initialization_level := p_level }

/-- Embedding of `ign_init` (main.cpp, lines 39-49). The godot-cpp method `InitObject::init`
is the parameter `init`; the result is the returned value together with the `InitObject` on
which `init` was called. -/
def ign_init (init : InitObject → GDExtensionBool)
    (p_get_proc_address p_library r_initialization : Nat) : GDExtensionBool × InitObject :=
  let init_obj := InitObject.new p_get_proc_address p_library r_initialization
  let init_obj := InitObject.register_initializer initialize_ign_module init_obj
  let init_obj := InitObject.register_terminator uninitialize_ign_module init_obj
  let init_obj :=
    InitObject.set_minimum_library_initialization_level MODULE_INITIALIZATION_LEVEL_SCENE init_obj
  (init init_obj, init_obj)

/-! ## `ImGuiGD.h` -/

/-- The engine type `Vector2`. Its components are `real_t` values; the only values the header
writes are the literals `0` and `1`, which every binary floating-point format holds exactly,
so components are rationals here. -/
structure Vector2 where
  x : ℚ
  y : ℚ
  deriving DecidableEq

/-- The engine type `Color` (red, green, blue, alpha), components as for `Vector2`. -/
structure Color where
  r : ℚ
  g : ℚ
  b : ℚ
  a : ℚ
  deriving DecidableEq

/-- A `Texture2D*` argument: an opaque address. -/
abbrev Texture2D := Nat

/-- The values of the six parameters of `ImGuiGD::Image` on entry to its body. -/
structure ImageParams where
  tex : Texture2D
  size : Vector2
  uv0 : Vector2
  uv1 : Vector2
  tint_col : Color
  border_col : Color
  deriving DecidableEq

/-- The values of the seven parameters of `ImGuiGD::ImageButton` on entry to its body. -/
structure ImageButtonParams where
  str_id : String
  tex : Texture2D
  size : Vector2
  uv0 : Vector2
  uv1 : Vector2
  bg_col : Color
  tint_col : Color
  deriving DecidableEq

/-- Parameter binding of a call of `ImGuiGD::Image` (ImGuiGD.h, lines 24-25): an argument the
caller leaves out (`none`) takes the default written in the declaration. C++ lets a caller
leave out trailing arguments only. -/
def ImGuiGD.Image (tex : Texture2D) (size : Vector2) (uv0 uv1 : Option Vector2)
    (tint_col border_col : Option Color) : ImageParams :=
  { tex := tex
    size := size
    uv0 := uv0.getD ⟨0, 0⟩
    uv1 := uv1.getD ⟨1, 1⟩
    tint_col := tint_col.getD ⟨1, 1, 1, 1⟩
    border_col := border_col.getD ⟨0, 0, 0, 0⟩ }

/-- Parameter binding of a call of `ImGuiGD::ImageButton` (ImGuiGD.h, lines 27-29). -/
def ImGuiGD.ImageButton (str_id : String) (tex : Texture2D) (size : Vector2)
    (uv0 uv1 : Option Vector2) (bg_col tint_col : Option Color) : ImageButtonParams :=
  { str_id := str_id
    tex := tex
    size := size
    uv0 := uv0.getD ⟨0, 0⟩
    uv1 := uv1.getD ⟨1, 1⟩
    bg_col := bg_col.getD ⟨0, 0, 0, 0⟩
    tint_col := tint_col.getD ⟨1, 1, 1, 1⟩ }

/-! ## `CanvasRenderer.h` -/

/-- The engine type `RID`: an opaque resource identifier. -/
structure RID where
  id : Nat
  deriving DecidableEq

/-- Modelled from the spec: `struct CanvasRenderer::Impl` is only forward-declared in
CanvasRenderer.h; its definition is in CanvasRenderer.cpp, which is not among the sources.
The spec (sections 3 and 4.3) gives the adapter the states uninitialized and initialized,
per-viewport resources keyed by viewport handle, and a suspension of rendering requested by
`OnHide`. `viewports` is the set of handles that own per-viewport resources. -/
structure CanvasRenderer.Impl where
  initialized : Bool
  viewports : Finset RID
  suspended : Bool
  deriving DecidableEq

/-- The class `CanvasRenderer`: its only data member is `impl`. -/
structure CanvasRenderer where
  impl : CanvasRenderer.Impl
  deriving DecidableEq

/-- Modelled from the spec: the constructor `CanvasRenderer()` is defined in
CanvasRenderer.cpp. A constructed adapter is uninitialized, owns no per-viewport resource
and is not suspended. -/
def CanvasRenderer.new : CanvasRenderer :=
  { impl := { initialized := false, viewports := ∅, suspended := false } }

/-- Embedding of `CanvasRenderer::Name` (CanvasRenderer.h, lines 20-23): the returned string
and the adapter after the call. The body reads and writes no member. -/
def CanvasRenderer.Name (self : CanvasRenderer) : String × CanvasRenderer :=
  ("godot4_canvas", self)

/-- Modelled from the spec: `CanvasRenderer::Init` is defined in CanvasRenderer.cpp. Spec 4.3:
"`Init` uninitialized→initialized (allocates backend resources, may fail and report failure
to caller)". Whether the engine-side allocation succeeds is the parameter `backend_ok` and
the returned boolean reports it. The spec does not say in what state a failed `Init` leaves
the adapter; the model leaves it as it was, and no theorem below uses that branch. -/
def CanvasRenderer.Init (backend_ok : Bool) (self : CanvasRenderer) : Bool × CanvasRenderer :=
  if backend_ok then
    (true, { impl := { self.impl with initialized := true } })
  else
    (false, self)

/-- Modelled from the spec: `CanvasRenderer::InitViewport` is defined in CanvasRenderer.cpp.
Spec 4.3: "`InitViewport`/`CloseViewport` manage per-viewport resources keyed by viewport
handle". `InitViewport` creates the resources of `vprid`. -/
def CanvasRenderer.InitViewport (vprid : RID) (self : CanvasRenderer) : CanvasRenderer :=
  { impl := { self.impl with viewports := insert vprid self.impl.viewports } }

/-- Modelled from the spec: `CanvasRenderer::OnHide` is defined in CanvasRenderer.cpp. Spec
4.3: "`OnHide` signals the adapter to suspend rendering without tearing down state". The spec
names no operation that resumes rendering, so the model has none. -/
def CanvasRenderer.OnHide (self : CanvasRenderer) : CanvasRenderer :=
  { impl := { self.impl with suspended := true } }

/-- Modelled from the spec: `CanvasRenderer::Render` is defined in CanvasRenderer.cpp. Spec
4.3: "`Render` executes once per frame while initialized, issuing the GUI library's draw
commands against the active viewport's render target", and `OnHide` suspends it. The result
is the adapter after the call and the set of viewport render targets that received draw
commands. The spec describes `Render` on an initialized adapter only: what the body does
before `Init` is not given by it, the branch for that case stands for no more than "nothing
is described", and no theorem below uses it. -/
def CanvasRenderer.Render (self : CanvasRenderer) : CanvasRenderer × Finset RID :=
  if self.impl.initialized && !self.impl.suspended then
    (self, self.impl.viewports)
  else
    (self, ∅)

/-! ## Helper lemmas -/

lemma initialize_ign_module_scene_classes (db : ClassDB) :
    (initialize_ign_module MODULE_INITIALIZATION_LEVEL_SCENE db).classes
      = db.classes ++ ["ImGui", "ImGuiRoot", "ImGuiLayer", "ImGuiGodotHelper", "ImGuiGD"] := by
  simp [initialize_ign_module, ClassDB.register_class]

lemma initialize_ign_module_of_ne (p_level : ModuleInitializationLevel)
    (h : p_level ≠ MODULE_INITIALIZATION_LEVEL_SCENE) (db : ClassDB) :
    initialize_ign_module p_level db = db := by
  simp [initialize_ign_module, h]

lemma initialize_ign_module_scene_ne (db : ClassDB) :
    initialize_ign_module MODULE_INITIALIZATION_LEVEL_SCENE db ≠ db := by
  intro h
  have hlen := congrArg (fun d => d.classes.length) h
  simp [initialize_ign_module_scene_classes] at hlen

lemma uninitialize_ign_module_eq (p_level : ModuleInitializationLevel) (db : ClassDB) :
    uninitialize_ign_module p_level db = db := by
  unfold uninitialize_ign_module
  split <;> rfl

/-! ## Module entry point (main.cpp) -/

/-- C1: at `MODULE_INITIALIZATION_LEVEL_SCENE`, whatever the registry holds,
`initialize_ign_module` registers ImGui, ImGuiRoot, ImGuiLayer, ImGuiGodotHelper and ImGuiGD,
in that order, after what was there; every class name gains exactly one registration if it is
one of the five and none otherwise. -/
theorem initialize_ign_module_scene_registers_five (db : ClassDB) :
    (initialize_ign_module MODULE_INITIALIZATION_LEVEL_SCENE db).classes
        = db.classes ++ ["ImGui", "ImGuiRoot", "ImGuiLayer", "ImGuiGodotHelper", "ImGuiGD"]
      ∧ ∀ T : String,
          (initialize_ign_module MODULE_INITIALIZATION_LEVEL_SCENE db).classes.count T
            = db.classes.count T
              + (if T ∈ ["ImGui", "ImGuiRoot", "ImGuiLayer", "ImGuiGodotHelper", "ImGuiGD"]
                  then 1 else 0) := by
  refine ⟨initialize_ign_module_scene_classes db, fun T => ?_⟩
  have hnd : (["ImGui", "ImGuiRoot", "ImGuiLayer", "ImGuiGodotHelper", "ImGuiGD"]
      : List String).Nodup := by decide
  rw [initialize_ign_module_scene_classes, List.count_append, List.count_eq_of_nodup hnd]

/-- C2: at every level other than `MODULE_INITIALIZATION_LEVEL_SCENE`, and whatever the
registry holds, `initialize_ign_module` returns the registry unchanged (so it registers no
class), and so does any number `n` of calls in a row. -/
theorem initialize_ign_module_other_level_noop (p_level : ModuleInitializationLevel)
    (h : p_level ≠ MODULE_INITIALIZATION_LEVEL_SCENE) (db : ClassDB) (n : Nat) :
    initialize_ign_module p_level db = db
      ∧ (initialize_ign_module p_level)^[n] db = db := by
  refine ⟨initialize_ign_module_of_ne p_level h db, ?_⟩
  exact Function.iterate_fixed (initialize_ign_module_of_ne p_level h db) n

/-- Witness of C2 at the editor level, a registry holding one class, three calls. -/
theorem initialize_ign_module_other_level_noop_witness :
    MODULE_INITIALIZATION_LEVEL_EDITOR ≠ MODULE_INITIALIZATION_LEVEL_SCENE
      ∧ (initialize_ign_module MODULE_INITIALIZATION_LEVEL_EDITOR ⟨["Node"]⟩ = ⟨["Node"]⟩
        ∧ (initialize_ign_module MODULE_INITIALIZATION_LEVEL_EDITOR)^[3] ⟨["Node"]⟩
            = ⟨["Node"]⟩) :=
  ⟨by decide,
    initialize_ign_module_other_level_noop MODULE_INITIALIZATION_LEVEL_EDITOR (by decide)
      ⟨["Node"]⟩ 3⟩

/-- C5: for every loader input and every behaviour of `InitObject::init`, `ign_init` calls
`init` on an `InitObject` whose initializer is `initialize_ign_module`, whose terminator is
`uninitialize_ign_module` and whose minimum level is `MODULE_INITIALIZATION_LEVEL_SCENE`, and
returns the value of that call; the minimum level is the one level at which
`initialize_ign_module` changes the registry. -/
theorem ign_init_registers_and_returns_init (init : InitObject → GDExtensionBool)
    (p_get_proc_address p_library r_initialization : Nat) :
    (ign_init init p_get_proc_address p_library r_initialization).2
        = { get_proc_address := p_get_proc_address
            library := p_library
            initialization := r_initialization
            init_callback := some initialize_ign_module
            terminate_callback := some uninitialize_ign_module
            minimum_initialization_level := MODULE_INITIALIZATION_LEVEL_SCENE }
      ∧ (ign_init init p_get_proc_address p_library r_initialization).1
          = init (ign_init init p_get_proc_address p_library r_initialization).2
      ∧ ∀ (p_level : ModuleInitializationLevel) (db : ClassDB),
          initialize_ign_module p_level db ≠ db
            ↔ p_level = (ign_init init p_get_proc_address p_library
                r_initialization).2.minimum_initialization_level := by
  refine ⟨rfl, rfl, fun p_level db => ?_⟩
  show initialize_ign_module p_level db ≠ db ↔ p_level = MODULE_INITIALIZATION_LEVEL_SCENE
  constructor
  · intro hne
    by_contra hl
    exact hne (initialize_ign_module_of_ne p_level hl db)
  · rintro rfl
    exact initialize_ign_module_scene_ne db

/-- C6: at every level, the scene level included, and whatever the registry holds,
`uninitialize_ign_module` returns the registry unchanged; called after a scene-level
`initialize_ign_module` it keeps every class that call registered. -/
theorem uninitialize_ign_module_noop (p_level : ModuleInitializationLevel) (db : ClassDB) :
    uninitialize_ign_module p_level db = db
      ∧ uninitialize_ign_module p_level
            (initialize_ign_module MODULE_INITIALIZATION_LEVEL_SCENE db)
          = initialize_ign_module MODULE_INITIALIZATION_LEVEL_SCENE db
      ∧ ∀ T ∈ ["ImGui", "ImGuiRoot", "ImGuiLayer", "ImGuiGodotHelper", "ImGuiGD"],
          T ∈ (uninitialize_ign_module p_level
            (initialize_ign_module MODULE_INITIALIZATION_LEVEL_SCENE db)).classes := by
  refine ⟨uninitialize_ign_module_eq p_level db, uninitialize_ign_module_eq p_level _, ?_⟩
  intro T hT
  rw [uninitialize_ign_module_eq, initialize_ign_module_scene_classes]
  exact List.mem_append_right _ hT

/-! ## Scripting helper defaults (ImGuiGD.h) -/

/-- C3: a call of `ImGuiGD::Image` with only a texture and a size runs with uv0 = (0,0),
uv1 = (1,1), tint_col = (1,1,1,1) and border_col = (0,0,0,0); the tint has alpha 1 (opaque)
and the border alpha 0 (transparent). -/
theorem Image_default_arguments (tex : Texture2D) (size : Vector2) :
    ImGuiGD.Image tex size none none none none
        = { tex := tex, size := size, uv0 := ⟨0, 0⟩, uv1 := ⟨1, 1⟩,
            tint_col := ⟨1, 1, 1, 1⟩, border_col := ⟨0, 0, 0, 0⟩ }
      ∧ (ImGuiGD.Image tex size none none none none).tint_col.a = 1
      ∧ (ImGuiGD.Image tex size none none none none).border_col.a = 0 :=
  ⟨rfl, rfl, rfl⟩

/-- C4: a call of `ImGuiGD::ImageButton` with only an id, a texture and a size runs with
uv0 = (0,0), uv1 = (1,1), bg_col = (0,0,0,0) and tint_col = (1,1,1,1); uv0, uv1 and tint_col
are the ones a call of `ImGuiGD::Image` with only a texture and a size runs with. -/
theorem ImageButton_default_arguments (str_id : String) (tex : Texture2D) (size : Vector2) :
    ImGuiGD.ImageButton str_id tex size none none none none
        = { str_id := str_id, tex := tex, size := size, uv0 := ⟨0, 0⟩, uv1 := ⟨1, 1⟩,
            bg_col := ⟨0, 0, 0, 0⟩, tint_col := ⟨1, 1, 1, 1⟩ }
      ∧ (ImGuiGD.ImageButton str_id tex size none none none none).uv0
          = (ImGuiGD.Image tex size none none none none).uv0
      ∧ (ImGuiGD.ImageButton str_id tex size none none none none).uv1
          = (ImGuiGD.Image tex size none none none none).uv1
      ∧ (ImGuiGD.ImageButton str_id tex size none none none none).tint_col
          = (ImGuiGD.Image tex size none none none none).tint_col :=
  ⟨rfl, rfl, rfl, rfl⟩

/-! ## Viewport renderer adapter (CanvasRenderer.h) -/

/-- C10: in every state of the adapter, `Name` returns the string "godot4_canvas" and leaves
the adapter as it was. -/
theorem CanvasRenderer_Name_constant (self : CanvasRenderer) :
    (CanvasRenderer.Name self).1 = "godot4_canvas"
      ∧ (CanvasRenderer.Name self).2 = self :=
  ⟨rfl, rfl⟩

/-- C9: for every initialized adapter, `Render` after `OnHide` issues draw commands against
no render target, and the adapter after the two calls is still initialized and owns the same
per-viewport resources as before them. -/
theorem OnHide_Render_no_output (self : CanvasRenderer)
    (h : self.impl.initialized = true) :
    (CanvasRenderer.Render (CanvasRenderer.OnHide self)).2 = ∅
      ∧ (CanvasRenderer.Render (CanvasRenderer.OnHide self)).1.impl.initialized = true
      ∧ (CanvasRenderer.Render (CanvasRenderer.OnHide self)).1.impl.viewports
          = self.impl.viewports := by
  simp [CanvasRenderer.Render, CanvasRenderer.OnHide, h]

/-- Witness of C9: an initialized adapter that owns resources for handle 1; before `OnHide`,
`Render` draws to that target. -/
theorem OnHide_Render_no_output_witness :
    (CanvasRenderer.InitViewport ⟨1⟩
        (CanvasRenderer.Init true CanvasRenderer.new).2).impl.initialized = true
      ∧ ((CanvasRenderer.Render (CanvasRenderer.OnHide (CanvasRenderer.InitViewport ⟨1⟩
            (CanvasRenderer.Init true CanvasRenderer.new).2))).2 = ∅
        ∧ (CanvasRenderer.Render (CanvasRenderer.OnHide (CanvasRenderer.InitViewport ⟨1⟩
            (CanvasRenderer.Init true CanvasRenderer.new).2))).1.impl.initialized = true
        ∧ (CanvasRenderer.Render (CanvasRenderer.OnHide (CanvasRenderer.InitViewport ⟨1⟩
            (CanvasRenderer.Init true CanvasRenderer.new).2))).1.impl.viewports
          = (CanvasRenderer.InitViewport ⟨1⟩
              (CanvasRenderer.Init true CanvasRenderer.new).2).impl.viewports) :=
  ⟨by decide,
    OnHide_Render_no_output
      (CanvasRenderer.InitViewport ⟨1⟩ (CanvasRenderer.Init true CanvasRenderer.new).2)
      (by decide)⟩

end ImGuiGodot
